import Mathlib

/-!
# GhostPass core — shallow embedding and verification

This file embeds the core of the GhostPass repository
(`ghostpass/core/encryption.py` and `ghostpass/core/ip_rotator.py`) as
executable Lean definitions and proves / refutes the frozen specification
claims about it.

Conventions of the embedding:

* Python `bytes` values are `List Nat` (each entry a byte value).
* The external `cryptography` library primitives (PBKDF2-HMAC-SHA256,
  HKDF-SHA256, AES-256-GCM, ChaCha20) are not part of the repository; they
  are modelled as concrete executable functions that realise the library's
  *contract*: stream ciphers XOR the data with a keystream determined by
  (key, nonce); GCM additionally produces an authentication tag that is a
  function of (key, iv, ciphertext) and is checked on decryption.
  Collision-resistance / PRF security of the primitives is idealised as
  injectivity of the modelling functions (tags and key derivation are
  injective encodings of their inputs).
* The library's input validation is part of the contract and is modelled
  where the repository's hard-wired sizes make it reachable:
  `algorithms.ChaCha20.__init__` requires a 16-byte nonce
  (`ValueError("nonce must be 128-bits (16 bytes)")`) while the code
  supplies `os.urandom(12)`; `modes.GCM.__init__` requires an 8-128-byte
  IV, which the code's `os.urandom(12)` satisfies.  The key-size checks
  (AES-256 / ChaCha20 keys must be 32 bytes) always pass for the keys the
  manager derives (PBKDF2/HKDF with `length=32`), whose 32-byte values the
  model's key terms stand for, and are not modelled; likewise GCM's
  minimum-tag-length check always passes for the 16-byte library tags the
  model's abstract tag values stand for.
* `os.urandom` outputs (IVs, nonces, generated salts) are passed in as
  explicit parameters; `os.urandom(n)` always has length `n`, which
  theorems state as hypotheses on those parameters.
* Python's `self` mutations survive a later exception in the same call, so
  the encryption operations return the updated manager *alongside* the
  `Except` result (a failed `encrypt_chacha20` has already stored a newly
  derived session key).  Pure read-only operations return only `Except`.
  Mirroring the code, there is one `invalid_tag` error with no layer
  information: only the AES-GCM layer can raise it, the ChaCha20 layer of
  this code is unauthenticated.
-/

namespace GhostPass

/-- Python `bytes` (a list of byte values). -/
abbrev Bytes := List Nat

/-- Byte-wise XOR of two byte strings, truncated to the shorter one
(the embedding only ever applies it to equal-length lists). -/
def xorBytes (a b : Bytes) : Bytes := List.zipWith (fun x y => x ^^^ y) a b

/-- Little-endian radix-256 value of a byte string.  Used to feed whole
byte strings into the modelled primitives; injective on equal-length
lists of genuine bytes (`< 256`). -/
def leVal (l : Bytes) : Nat := l.foldr (fun b acc => b + 256 * acc) 0

/-- Injective fingerprint of a byte string: its radix-256 value paired with
its length.  On lists whose entries are `< 256` this determines the list. -/
def bytesFingerprint (l : Bytes) : Nat := Nat.pair (leVal l) l.length

/-- Modelled contract of the AES-256-CTR keystream inside AES-GCM: one
keystream word per index, a deterministic function of (key, iv, index). -/
def aesGcmKeystreamByte (key iv : Bytes) (i : Nat) : Nat :=
  Nat.pair (bytesFingerprint iv) (Nat.pair (bytesFingerprint key) i)

/-- AES-GCM keystream of a given length. -/
def aesGcmKeystream (key iv : Bytes) (len : Nat) : Bytes :=
  (List.range len).map (aesGcmKeystreamByte key iv)

/-- Modelled contract of the AES-GCM authentication tag: a deterministic
value of (key, iv, ciphertext), injective in the triple (the ideal-MAC
reading of GCM's unforgeability). -/
def gcmTag (key iv ct : Bytes) : Bytes :=
  key.length :: iv.length :: ct.length :: (key ++ iv ++ ct)

/-- Modelled contract of the ChaCha20 keystream: one keystream word per
index, a deterministic function of (key, nonce, index), injective in the
nonce fingerprint (the ideal-PRF reading of ChaCha20). -/
def chachaKeystreamByte (key nonce : Bytes) (i : Nat) : Nat :=
  Nat.pair (bytesFingerprint key) (Nat.pair (bytesFingerprint nonce) i) + 1

/-- ChaCha20 keystream of a given length. -/
def chachaKeystream (key nonce : Bytes) (len : Nat) : Bytes :=
  (List.range len).map (chachaKeystreamByte key nonce)

/-- Modelled contract of PBKDF2-HMAC-SHA256 (`kdf.derive`): a deterministic
function of (password, salt, iterations) producing `keyLen` bytes. -/
def pbkdf2HmacSha256 (password salt : Bytes) (iterations keyLen : Nat) : Bytes :=
  (List.range keyLen).map (fun i =>
    (leVal password * 31 + leVal salt * 17 + iterations * 7 + i * 13 + 5) % 256)

/-- Modelled contract of HKDF-SHA256 with `info = "session"` (`hkdf.derive`):
a deterministic function of the input key material, injective in it
(collision resistance idealised as injectivity). -/
def hkdfSha256 (ikm : Bytes) : Bytes := ikm.length :: ikm

/-- `str.encode()` of a session-id string: its characters as numbers. -/
def strBytes (s : String) : Bytes := s.data.map Char.toNat

/-- `EncryptionConfig` dataclass (`encryption.py` lines 24-32). -/
structure EncryptionConfig where
  algorithm : String := "AES-256-GCM"
  key_size : Nat := 32
  salt_size : Nat := 16
  iv_size : Nat := 12
  tag_size : Nat := 16
  iterations : Nat := 100000
deriving DecidableEq, Repr, Inhabited

/-- The exceptions the encryption code can raise:
`ValueError("Master key not set ...")` and `ValueError("Session key ...
not found")` from the manager itself, and from the `cryptography` library
`ValueError("nonce must be 128-bits (16 bytes)")` (ChaCha20 constructor),
the `modes.GCM` IV-size `ValueError`, and `InvalidTag`.  The code defines
no layer-tagged error: none of these carries information about which
layer raised it. -/
inductive CryptoError where
  | master_key_not_set : CryptoError
  | session_key_not_found (session_id : String) : CryptoError
  | chacha_nonce_invalid : CryptoError
  | gcm_iv_invalid : CryptoError
  | invalid_tag : CryptoError
deriving DecidableEq, Repr

/-- Mutable state of `EncryptionManager`: the optional master key and the
session-key dict.  The dict is modelled as an association list where an
insert prepends (so `List.lookup` sees the latest binding, matching
Python dict overwrite semantics). -/
structure EncryptionManager where
  config : EncryptionConfig := {}
  master_key : Option Bytes := none
  session_keys : List (String × Bytes) := []
deriving DecidableEq, Repr, Inhabited

/-- `generate_master_key` (lines 53-67): PBKDF2 over the password with the
given salt (a fresh random salt `freshSalt` when none is supplied),
storing and returning the derived key. -/
def generate_master_key (m : EncryptionManager) (password : String)
    (salt : Option Bytes) (freshSalt : Bytes) : EncryptionManager × Bytes :=
  let salt := salt.getD freshSalt
  let key := pbkdf2HmacSha256 (strBytes password) salt m.config.iterations m.config.key_size
  ({ m with master_key := some key }, key)

/-- `derive_session_key` (lines 69-84): HKDF over `master_key + session_id`,
stored in the session-key dict; `ValueError` when the master key is unset. -/
def derive_session_key (m : EncryptionManager) (session_id : String) :
    Except CryptoError (EncryptionManager × Bytes) :=
  match m.master_key with
  | none => .error .master_key_not_set
  | some mk =>
    let key := hkdfSha256 (mk ++ strBytes session_id)
    .ok ({ m with session_keys := (session_id, key) :: m.session_keys }, key)

/-- The key-resolution prelude of `encrypt_aes` / `encrypt_chacha20`
(lines 89-92 / 140-143): an explicitly passed key wins; otherwise the
session key is looked up and silently derived when missing. -/
def getEncryptKey (m : EncryptionManager) (key : Option Bytes) (session_id : String) :
    Except CryptoError (EncryptionManager × Bytes) :=
  match key with
  | some k => .ok (m, k)
  | none =>
    match m.session_keys.lookup session_id with
    | some k => .ok (m, k)
    | none => derive_session_key m session_id

/-- The key-resolution prelude of `decrypt_aes` / `decrypt_chacha20`
(lines 118-121 / 168-171): an explicitly passed key wins; otherwise the
session key is looked up and a missing key raises `ValueError`. -/
def getDecryptKey (m : EncryptionManager) (key : Option Bytes) (session_id : String) :
    Except CryptoError Bytes :=
  match key with
  | some k => .ok k
  | none =>
    match m.session_keys.lookup session_id with
    | some k => .ok k
    | none => .error (.session_key_not_found session_id)

/-- Result dict of `encrypt_aes`. -/
structure AesEncrypted where
  ciphertext : Bytes
  iv : Bytes
  tag : Bytes
deriving DecidableEq, Repr, Inhabited

/-- Result dict of `encrypt_chacha20`. -/
structure ChaChaEncrypted where
  ciphertext : Bytes
  nonce : Bytes
deriving DecidableEq, Repr, Inhabited

/-- `encrypt_aes` (lines 86-113): key resolution (which may mutate the
manager by deriving and storing a session key), then `modes.GCM(iv)`
construction — the library rejects an IV outside 8-128 bytes, after the
key was already stored — then AES-256-GCM encryption under the random IV
(the `os.urandom(iv_size)` output, passed explicitly; `iv_size` is 12,
which the GCM check accepts). -/
def encrypt_aes (m : EncryptionManager) (data : Bytes) (key : Option Bytes)
    (session_id : String) (iv : Bytes) :
    EncryptionManager × Except CryptoError AesEncrypted :=
  match getEncryptKey m key session_id with
  | .error e => (m, .error e)
  | .ok (m', k) =>
    if 8 ≤ iv.length ∧ iv.length ≤ 128 then
      (m', .ok { ciphertext := xorBytes data (aesGcmKeystream k iv data.length), iv := iv,
                 tag := gcmTag k iv (xorBytes data (aesGcmKeystream k iv data.length)) })
    else (m', .error .gcm_iv_invalid)

/-- `decrypt_aes` (lines 115-135): key lookup first (`ValueError` when the
session key is missing), then `modes.GCM(iv, tag)` construction (IV size
check), then decryption; `finalize` checks the tag and raises `InvalidTag`
on mismatch. -/
def decrypt_aes (m : EncryptionManager) (e : AesEncrypted) (key : Option Bytes)
    (session_id : String) : Except CryptoError Bytes := do
  let k ← getDecryptKey m key session_id
  if 8 ≤ e.iv.length ∧ e.iv.length ≤ 128 then
    if gcmTag k e.iv e.ciphertext = e.tag then
      .ok (xorBytes e.ciphertext (aesGcmKeystream k e.iv e.ciphertext.length))
    else .error .invalid_tag
  else .error .gcm_iv_invalid

/-- `encrypt_chacha20` (lines 137-163): key resolution (which may mutate
the manager by deriving and storing a session key), then
`algorithms.ChaCha20(key, nonce)` construction.  The library requires a
16-byte nonce and raises `ValueError("nonce must be 128-bits (16 bytes)")`
otherwise — but the code supplies `nonce = os.urandom(12)` (line 146), so
in the program this constructor raises on every call, after the key was
stored.  With a 16-byte nonce it would be plain ChaCha20 stream encryption
(`mode=None`: no Poly1305 tag). -/
def encrypt_chacha20 (m : EncryptionManager) (data : Bytes) (key : Option Bytes)
    (session_id : String) (nonce : Bytes) :
    EncryptionManager × Except CryptoError ChaChaEncrypted :=
  match getEncryptKey m key session_id with
  | .error e => (m, .error e)
  | .ok (m', k) =>
    if nonce.length = 16 then
      (m', .ok { ciphertext := xorBytes data (chachaKeystream k nonce data.length),
                 nonce := nonce })
    else (m', .error .chacha_nonce_invalid)

/-- `decrypt_chacha20` (lines 165-185): key lookup first (`ValueError`
when the session key is missing), then `algorithms.ChaCha20(key, nonce)`
construction with the envelope's nonce — raising the same 16-byte-nonce
`ValueError` for any other nonce length — then plain ChaCha20 stream
decryption; no authentication whatsoever. -/
def decrypt_chacha20 (m : EncryptionManager) (e : ChaChaEncrypted) (key : Option Bytes)
    (session_id : String) : Except CryptoError Bytes := do
  let k ← getDecryptKey m key session_id
  if e.nonce.length = 16 then
    .ok (xorBytes e.ciphertext (chachaKeystream k e.nonce e.ciphertext.length))
  else .error .chacha_nonce_invalid

/-- The envelope dict of `encrypt_multi_layer` (lines 220-227).  The
`session_id` entry is optional because `decrypt_multi_layer` reads it with
`.get('session_id', 'default')`. -/
structure MultiLayerEncrypted where
  aes_iv : Bytes
  aes_tag : Bytes
  chacha_nonce : Bytes
  final_ciphertext : Bytes
  algorithm : String := "AES-256-GCM+ChaCha20"
  session_id : Option String := none
deriving DecidableEq, Repr, Inhabited

/-- `encrypt_multi_layer` (lines 208-231): layer 1 AES-256-GCM under
`session_id`, layer 2 ChaCha20 under `session_id + "_chacha"` applied to
the AES ciphertext.  An exception from either layer propagates (`except
... raise`), with the manager mutations made so far kept. -/
def encrypt_multi_layer (m : EncryptionManager) (data : Bytes) (session_id : String)
    (iv nonce : Bytes) : EncryptionManager × Except CryptoError MultiLayerEncrypted :=
  match encrypt_aes m data none session_id iv with
  | (m1, .error e) => (m1, .error e)
  | (m1, .ok aes) =>
    match encrypt_chacha20 m1 aes.ciphertext none (session_id ++ "_chacha") nonce with
    | (m2, .error e) => (m2, .error e)
    | (m2, .ok chacha) =>
      (m2, .ok { aes_iv := aes.iv, aes_tag := aes.tag, chacha_nonce := chacha.nonce,
                 final_ciphertext := chacha.ciphertext,
                 algorithm := "AES-256-GCM+ChaCha20", session_id := some session_id })

/-- `decrypt_multi_layer` (lines 233-260): undo ChaCha20 (layer 2), then
AES-256-GCM (layer 1), with session ids reconstructed from the envelope. -/
def decrypt_multi_layer (m : EncryptionManager) (e : MultiLayerEncrypted) :
    Except CryptoError Bytes := do
  let sid := e.session_id.getD "default"
  let aesCt ← decrypt_chacha20 m { ciphertext := e.final_ciphertext, nonce := e.chacha_nonce }
    none (sid ++ "_chacha")
  decrypt_aes m { ciphertext := aesCt, iv := e.aes_iv, tag := e.aes_tag } none sid

/-! ## IP rotator (`ghostpass/core/ip_rotator.py`)

The rotator's collaborators (`tor_controller`, wall clock) are external
I/O; their responses for one `rotate_ip` call are collected in a
`RotationEnv` record passed in explicitly.  `tor_rotate_outcome` is indexed
by attempt number so that statements about (absent) retries can refer to
the outcome a second attempt *would* have had; the code performs exactly
one build call, which is `tor_rotate_outcome 0`. -/

/-- `RotationMode` enum. -/
inductive RotationMode where
  | manual | timed | interval | performance
deriving DecidableEq, Repr, Inhabited

/-- `RotationConfig` dataclass (`ip_rotator.py` lines 41-49). -/
structure RotationConfig where
  mode : RotationMode := .manual
  interval_minutes : Nat := 30
  schedule_times : List String := []
  performance_threshold : Rat := 1/2
  max_rotation_attempts : Nat := 3
  cooldown_seconds : Nat := 60
deriving DecidableEq, Repr, Inhabited

/-- `IPInfo` dataclass (lines 27-38).  `latitude`/`longitude` are Python
floats carried as data, modelled as rationals; `timestamp` is the
`datetime.now()` at construction, modelled as a number.  Note that only
`timestamp` and `performance_score` have defaults in the Python dataclass:
`IPInfo(ip=x)` alone raises `TypeError`. -/
structure IPInfo where
  ip : String
  country : String
  city : String
  region : String
  isp : String
  latitude : Rat
  longitude : Rat
  timestamp : Nat
  performance_score : Rat := 0
deriving DecidableEq, Repr

/-- The geolocation dict returned by `tor_controller.get_ip_location`,
read with `.get(field, default)`. -/
structure LocationInfo where
  country_name : Option String := none
  city : Option String := none
  region : Option String := none
  org : Option String := none
  latitude : Option Rat := none
  longitude : Option Rat := none
deriving DecidableEq, Repr, Inhabited

/-- External responses consumed by one `rotate_ip` call.
`tor_rotate_outcome i` is the outcome the `i`-th build attempt would have;
the code consults only `tor_rotate_outcome 0`. -/
structure RotationEnv where
  tor_rotate_outcome : Nat → Bool
  new_ip : Option String
  location_info : Option LocationInfo
  now : Nat

/-- Mutable state of `IPRotator` (lines 64-77) relevant to rotation:
history, current identity, in-progress flag, last rotation time.
(The asyncio task handle, performance dict and callback list do not feed
back into `rotate_ip`'s control flow and are omitted.) -/
structure RotatorState where
  config : RotationConfig := {}
  ip_history : List IPInfo := []
  current_ip_info : Option IPInfo := none
  is_rotating : Bool := false
  last_rotation_time : Option Nat := none
deriving DecidableEq, Repr, Inhabited

/-- The prefix of `rotate_ip` before its first `await` (lines 103-112),
which asyncio executes atomically: the reject-fast guard, setting the
in-progress flag, and appending the current identity (when present) to the
history.  Returns `false` in the first component when the guard rejected. -/
def rotateBegin (st : RotatorState) : Bool × RotatorState :=
  if st.is_rotating then (false, st)
  else
    (true, { st with
      is_rotating := true,
      ip_history := st.ip_history ++ (match st.current_ip_info with
        | some info => [info]
        | none => []) })

/-- `IPInfo` construction from a geolocation dict (lines 130-142).  When
`location_info` is falsy the code runs `IPInfo(ip=new_ip)`, which raises
`TypeError` (six required fields are missing); the exception is caught by
the `except` clause of `rotate_ip`, so that branch returns failure. -/
def rotateResume (st : RotatorState) (env : RotationEnv) : Bool × RotatorState :=
  if !env.tor_rotate_outcome 0 then
    (false, { st with is_rotating := false })
  else
    match env.new_ip with
    | none => (false, { st with is_rotating := false })
    | some ip =>
      match env.location_info with
      | some loc =>
        (true, { st with
          current_ip_info := some {
            ip := ip,
            country := loc.country_name.getD "Unknown",
            city := loc.city.getD "Unknown",
            region := loc.region.getD "Unknown",
            isp := loc.org.getD "Unknown",
            latitude := loc.latitude.getD 0,
            longitude := loc.longitude.getD 0,
            timestamp := env.now },
          last_rotation_time := some env.now,
          is_rotating := false })
      | none => (false, { st with is_rotating := false })

/-- `rotate_ip` (lines 100-160): guard + body.  All exit paths reset
`is_rotating` (the `finally` clause).  Rotation observers (callbacks) are
invoked on success but their exceptions are swallowed and they do not
touch the rotator state, so they do not appear here. -/
def rotate_ip (st : RotatorState) (env : RotationEnv) : Bool × RotatorState :=
  let (go, st1) := rotateBegin st
  if go then rotateResume st1 env else (false, st1)

/-- `get_ip_history` (lines 283-285): `self.ip_history[-limit:] if
self.ip_history else []`.  Python's `lst[-0:]` is the whole list, hence
the `limit = 0` branch. -/
def get_ip_history (st : RotatorState) (limit : Nat) : List IPInfo :=
  if st.ip_history.isEmpty then []
  else if limit = 0 then st.ip_history
  else st.ip_history.drop (st.ip_history.length - limit)

/-- The score computation of `_test_connection_performance` (line 251):
`max(0, 1 - (response_time - 1) / 5)`.  The measured float response time
is modelled as a rational. -/
def performance_score_of (response_time : Rat) : Rat :=
  max 0 (1 - (response_time - 1) / 5)

/-! ## Key-resolution and layer behaviour lemmas -/

theorem getEncryptKey_spec (m : EncryptionManager) (mk : Bytes) (sid : String)
    (hm : m.master_key = some mk) :
    ∃ m' k, getEncryptKey m none sid = .ok (m', k) ∧
      m'.master_key = some mk ∧
      m'.session_keys.lookup sid = some k ∧
      (m.session_keys.lookup sid = none → k = hkdfSha256 (mk ++ strBytes sid)) := by
  cases hl : m.session_keys.lookup sid with
  | some k =>
    exact ⟨m, k, by simp [getEncryptKey, hl], hm, hl, fun h => Option.noConfusion h⟩
  | none =>
    refine ⟨{ m with session_keys := (sid, hkdfSha256 (mk ++ strBytes sid)) :: m.session_keys },
      hkdfSha256 (mk ++ strBytes sid), ?_, hm, ?_, fun _ => rfl⟩
    · simp [getEncryptKey, hl, derive_session_key, hm]
    · rw [List.lookup_cons]
      simp

theorem encrypt_aes_spec (m : EncryptionManager) (mk data : Bytes) (sid : String) (iv : Bytes)
    (hm : m.master_key = some mk) (hiv : 8 ≤ iv.length ∧ iv.length ≤ 128) :
    ∃ m' k, encrypt_aes m data none sid iv = (m',
        .ok { ciphertext := xorBytes data (aesGcmKeystream k iv data.length), iv := iv,
              tag := gcmTag k iv (xorBytes data (aesGcmKeystream k iv data.length)) }) ∧
      m'.master_key = some mk ∧
      m'.session_keys.lookup sid = some k ∧
      (m.session_keys.lookup sid = none → k = hkdfSha256 (mk ++ strBytes sid)) := by
  obtain ⟨m', k, heq, h1, h2, h3⟩ := getEncryptKey_spec m mk sid hm
  refine ⟨m', k, ?_, h1, h2, h3⟩
  simp [encrypt_aes, heq, hiv]

theorem encrypt_chacha20_fails (m : EncryptionManager) (mk data : Bytes) (sid : String)
    (nonce : Bytes) (hm : m.master_key = some mk) (hn : ¬ nonce.length = 16) :
    ∃ m' k, encrypt_chacha20 m data none sid nonce = (m', .error .chacha_nonce_invalid) ∧
      m'.master_key = some mk ∧
      m'.session_keys.lookup sid = some k ∧
      (m.session_keys.lookup sid = none → k = hkdfSha256 (mk ++ strBytes sid)) := by
  obtain ⟨m', k, heq, h1, h2, h3⟩ := getEncryptKey_spec m mk sid hm
  refine ⟨m', k, ?_, h1, h2, h3⟩
  simp [encrypt_chacha20, heq, hn]

/-- With a master key set, every `encrypt_multi_layer` call whose ChaCha20
nonce is not 16 bytes propagates the library's ChaCha20 nonce
`ValueError` (the AES layer, whose 12-byte IV the GCM constructor
accepts, succeeds first). -/
theorem encrypt_multi_layer_chacha_error (m : EncryptionManager) (mk data : Bytes)
    (sid : String) (iv nonce : Bytes) (hm : m.master_key = some mk)
    (hiv : 8 ≤ iv.length ∧ iv.length ≤ 128) (hn : ¬ nonce.length = 16) :
    (encrypt_multi_layer m data sid iv nonce).2 = .error .chacha_nonce_invalid := by
  obtain ⟨m1, kA, heqA, hmk1, _, _⟩ := encrypt_aes_spec m mk data sid iv hm hiv
  obtain ⟨m2, kC, heqC, _, _, _⟩ := encrypt_chacha20_fails m1 mk
    (xorBytes data (aesGcmKeystream kA iv data.length)) (sid ++ "_chacha") nonce hmk1 hn
  simp [encrypt_multi_layer, heqA, heqC]

theorem decrypt_chacha20_nonce_invalid (m : EncryptionManager) (c n : Bytes) (sid : String)
    (k : Bytes) (hl : m.session_keys.lookup sid = some k) (hn : ¬ n.length = 16) :
    decrypt_chacha20 m ⟨c, n⟩ none sid = .error .chacha_nonce_invalid := by
  simp [decrypt_chacha20, getDecryptKey, hl, hn, Bind.bind, Except.bind]

/-- Decrypting any envelope whose `chacha_nonce` is not 16 bytes — in
particular any envelope shaped like the code's own 12-byte output — fails
with the ChaCha20 nonce `ValueError` at the stream-cipher layer, before
any authentication check runs (the session key must exist, else the
lookup `ValueError` fires even earlier). -/
theorem decrypt_multi_layer_chacha_error (m : EncryptionManager) (e : MultiLayerEncrypted)
    (k : Bytes)
    (hkey : m.session_keys.lookup ((e.session_id.getD "default") ++ "_chacha") = some k)
    (hn : ¬ e.chacha_nonce.length = 16) :
    decrypt_multi_layer m e = .error .chacha_nonce_invalid := by
  simp only [decrypt_multi_layer, Bind.bind]
  rw [decrypt_chacha20_nonce_invalid m e.final_ciphertext e.chacha_nonce _ k hkey hn]
  simp [Except.bind]

/-- A 12-byte value: the shape of every `os.urandom(12)` output the code
feeds GCM as IV (`iv_size = 12`, line 95) and ChaCha20 as nonce
(line 146). -/
def nonce12 : Bytes := List.replicate 12 0

/-- Another 12-byte `os.urandom(12)`-shaped value, used as the GCM IV. -/
def iv12 : Bytes := List.replicate 12 9

/-! ## Claim C1: multi-layer round trip -/

/-- C1 (code bug): the multi-layer round trip is unexercisable.  For every
payload, session id and manager with a master key set, `encrypt_multi_layer`
fails with the ChaCha20 16-byte-nonce `ValueError`: the code hard-codes a
12-byte `os.urandom(12)` nonce (encryption.py line 146) that the
`cryptography` library's ChaCha20 constructor rejects, so no envelope is
ever produced and `decrypt(encrypt(P, E)) = P` — the spec's stated intent,
including its "Hello, GHOST PASS!" scenario — never happens. -/
theorem multi_layer_roundtrip_unreachable (m : EncryptionManager) (mk data : Bytes)
    (sid : String) (iv nonce : Bytes) (hm : m.master_key = some mk)
    (hiv : iv.length = 12) (hnonce : nonce.length = 12) :
    (encrypt_multi_layer m data sid iv nonce).2 = .error .chacha_nonce_invalid :=
  encrypt_multi_layer_chacha_error m mk data sid iv nonce hm (by omega) (by omega)

theorem multi_layer_roundtrip_unreachable_witness :
    (encrypt_multi_layer { master_key := some [1, 2] } [72, 105] "1" iv12 nonce12).2
      = .error .chacha_nonce_invalid :=
  multi_layer_roundtrip_unreachable { master_key := some [1, 2] } [1, 2] [72, 105] "1"
    iv12 nonce12 rfl (by decide) (by decide)

/-! ## Claim C2: cross-epoch rejection -/

/-- Manager for the cross-epoch scenario: master key set, epoch `"b"`'s
ChaCha20-layer session key derived. -/
def ceManager : EncryptionManager :=
  { master_key := some [3], session_keys := [("b_chacha", [9])] }

/-- An envelope shaped like the code's own output (12-byte nonces),
self-describing epoch `"b"`. -/
def ceEnvelope : MultiLayerEncrypted :=
  { aes_iv := iv12, aes_tag := [1], chacha_nonce := nonce12, final_ciphertext := [2],
    algorithm := "AES-256-GCM+ChaCha20", session_id := some "b" }

/-- C2 (code bug): the cross-epoch rejection property is unexercisable,
and the code's failure mode is not an authentication error.  No envelope
is ever encrypted under `sid1` — the hard-coded 12-byte ChaCha20 nonce
makes `encrypt_multi_layer` raise `ValueError` on every call — and
decrypting any envelope shaped like the code's own output (12-byte
`chacha_nonce`) under a different epoch `sid2`'s derived keys fails with
that same ChaCha20 nonce `ValueError`, which is not the claimed
`AuthenticationFailed` (`InvalidTag`). -/
theorem cross_epoch_rejection_unreachable (m : EncryptionManager) (mk data : Bytes)
    (sid1 sid2 : String) (iv nonce : Bytes) (e : MultiLayerEncrypted) (k : Bytes)
    (hm : m.master_key = some mk) (hiv : iv.length = 12) (hnonce : nonce.length = 12)
    (_hne : sid1 ≠ sid2) (hsid : e.session_id = some sid2)
    (hen : e.chacha_nonce.length = 12)
    (hkey : m.session_keys.lookup (sid2 ++ "_chacha") = some k) :
    (encrypt_multi_layer m data sid1 iv nonce).2 = .error .chacha_nonce_invalid
    ∧ decrypt_multi_layer m e = .error .chacha_nonce_invalid
    ∧ CryptoError.chacha_nonce_invalid ≠ CryptoError.invalid_tag := by
  refine ⟨encrypt_multi_layer_chacha_error m mk data sid1 iv nonce hm (by omega) (by omega),
    ?_, by decide⟩
  refine decrypt_multi_layer_chacha_error m e k ?_ (by omega)
  rw [hsid]
  exact hkey

theorem cross_epoch_rejection_unreachable_witness :
    (encrypt_multi_layer ceManager [10, 20] "a" iv12 nonce12).2 = .error .chacha_nonce_invalid
    ∧ decrypt_multi_layer ceManager ceEnvelope = .error .chacha_nonce_invalid
    ∧ CryptoError.chacha_nonce_invalid ≠ CryptoError.invalid_tag :=
  cross_epoch_rejection_unreachable ceManager [3] [10, 20] "a" "b" iv12 nonce12
    ceEnvelope [9] rfl (by decide) (by decide) (by decide) rfl (by decide) rfl

/-! ## Claim C8: tamper detection and layer identification -/

/-- Manager for the tampering scenario: master key set, session `"t"`'s
ChaCha20-layer key derived. -/
def tpManager : EncryptionManager :=
  { master_key := some [7], session_keys := [("t_chacha", [4])] }

/-- An envelope shaped like the code's own output (12-byte nonces) for
session `"t"`. -/
def tpEnvelope : MultiLayerEncrypted :=
  { aes_iv := iv12, aes_tag := [5], chacha_nonce := nonce12, final_ciphertext := [6],
    algorithm := "AES-256-GCM+ChaCha20", session_id := some "t" }

/-- C8 (code bug): tamper reporting never happens as claimed.  The code
can produce no envelope to tamper with — `encrypt_multi_layer` raises the
ChaCha20 nonce `ValueError` on every call — and decrypting any envelope
shaped like the code's own output (12-byte `chacha_nonce`) fails with
that same `ValueError` whether its tag or its ciphertext was tampered
with or not: one identical error, raised at ChaCha20 construction before
any authentication check runs, that is not an authentication failure and
identifies no layer. -/
theorem tamper_reporting_unreachable (m : EncryptionManager) (mk data : Bytes)
    (sid : String) (iv nonce : Bytes) (e : MultiLayerEncrypted) (k : Bytes) (tag2 ct2 : Bytes)
    (hm : m.master_key = some mk) (hiv : iv.length = 12) (hnonce : nonce.length = 12)
    (hen : e.chacha_nonce.length = 12)
    (hkey : m.session_keys.lookup ((e.session_id.getD "default") ++ "_chacha") = some k) :
    (encrypt_multi_layer m data sid iv nonce).2 = .error .chacha_nonce_invalid
    ∧ decrypt_multi_layer m e = .error .chacha_nonce_invalid
    ∧ decrypt_multi_layer m { e with aes_tag := tag2 } = .error .chacha_nonce_invalid
    ∧ decrypt_multi_layer m { e with final_ciphertext := ct2 } = .error .chacha_nonce_invalid := by
  refine ⟨encrypt_multi_layer_chacha_error m mk data sid iv nonce hm (by omega) (by omega),
    decrypt_multi_layer_chacha_error m e k hkey (by omega),
    decrypt_multi_layer_chacha_error m { e with aes_tag := tag2 } k hkey
      (show ¬ e.chacha_nonce.length = 16 by omega),
    decrypt_multi_layer_chacha_error m { e with final_ciphertext := ct2 } k hkey
      (show ¬ e.chacha_nonce.length = 16 by omega)⟩

theorem tamper_reporting_unreachable_witness :
    (encrypt_multi_layer tpManager [42, 43] "t" iv12 nonce12).2 = .error .chacha_nonce_invalid
    ∧ decrypt_multi_layer tpManager tpEnvelope = .error .chacha_nonce_invalid
    ∧ decrypt_multi_layer tpManager { tpEnvelope with aes_tag := [0] }
        = .error .chacha_nonce_invalid
    ∧ decrypt_multi_layer tpManager { tpEnvelope with final_ciphertext := [0] }
        = .error .chacha_nonce_invalid :=
  tamper_reporting_unreachable tpManager [7] [42, 43] "t" iv12 nonce12 tpEnvelope [4]
    [0] [0] rfl (by decide) (by decide) (by decide) rfl
/-! ## Claim C6: master-key derivation -/

/-- C6: master-key derivation is deterministic: with a fixed salt the
derived key depends only on the passphrase, the salt and the configuration
(in particular not on any other manager state and not on the fresh random
salt that would be used otherwise); the key has `key_size` bytes, which is
32 (256 bits) by default; the default PBKDF2 iteration count is
100000 ≥ 100000; when no salt is supplied the freshly generated random
salt is used. -/
theorem generate_master_key_deterministic (m m' : EncryptionManager) (pw : String)
    (salt fresh fresh' : Bytes) (hc : m.config = m'.config) :
    (generate_master_key m pw (some salt) fresh).2 = (generate_master_key m' pw (some salt) fresh').2
    ∧ (generate_master_key m pw (some salt) fresh).2.length = m.config.key_size
    ∧ (generate_master_key m pw none fresh).2 =
        pbkdf2HmacSha256 (strBytes pw) fresh m.config.iterations m.config.key_size
    ∧ ({} : EncryptionConfig).key_size = 32
    ∧ 100000 ≤ ({} : EncryptionConfig).iterations := by
  refine ⟨?_, ?_, rfl, rfl, le_refl _⟩
  · simp [generate_master_key, hc]
  · simp [generate_master_key, pbkdf2HmacSha256]

theorem generate_master_key_deterministic_witness :
    (generate_master_key {} "test_password" (some [1]) [2]).2 =
      (generate_master_key { master_key := some [9] } "test_password" (some [1]) [3]).2
    ∧ (generate_master_key {} "test_password" (some [1]) [2]).2.length =
        ({} : EncryptionManager).config.key_size
    ∧ (generate_master_key {} "test_password" none [2]).2 =
        pbkdf2HmacSha256 (strBytes "test_password") [2]
          ({} : EncryptionManager).config.iterations ({} : EncryptionManager).config.key_size
    ∧ ({} : EncryptionConfig).key_size = 32
    ∧ 100000 ≤ ({} : EncryptionConfig).iterations :=
  generate_master_key_deterministic {} { master_key := some [9] } "test_password" [1] [2] [3] rfl

/-! ## Claim C10: key-provisioning asymmetry of encrypt vs decrypt -/

/-- C10 counterexample: `encrypt_chacha20` never succeeds.  With a master
key set and the 12-byte nonce the code always generates
(`nonce = os.urandom(12)`, line 146), the call returns the ChaCha20
16-byte-nonce `ValueError`, refuting the claim's "encrypt_aes /
encrypt_chacha20 silently derive and store a new session key *and
succeed*" for the stream cipher.  (The key *is* derived and stored before
the raise — see the amended theorem.) -/
theorem encrypt_chacha20_never_succeeds :
    (encrypt_chacha20 { master_key := some [1] } [5] none "s" nonce12).2
      = .error .chacha_nonce_invalid :=
  rfl

/-- C10 amended: with a master key set and no stored session key for
`sid`, `encrypt_aes` silently derives and stores the session key and
succeeds (its 12-byte IV passes the GCM check); `encrypt_chacha20`
likewise silently derives and stores the session key but then always
fails with the ChaCha20 16-byte-nonce `ValueError` on its hard-coded
12-byte nonce — it never succeeds; and `decrypt_aes`/`decrypt_chacha20`
for the same unknown session id fail with the "Session key not found"
`ValueError` instead of deriving it — so a fresh manager with the same
master key cannot decrypt an envelope until the session key has been
explicitly derived. -/
theorem provisioning_asymmetry_amended (m : EncryptionManager) (mk : Bytes) (sid : String)
    (data iv nonce : Bytes) (e : AesEncrypted) (c : ChaChaEncrypted)
    (hm : m.master_key = some mk) (habsent : m.session_keys.lookup sid = none)
    (hiv : iv.length = 12) (hnonce : nonce.length = 12) :
    (∃ r, (encrypt_aes m data none sid iv).2 = .ok r)
    ∧ (encrypt_aes m data none sid iv).1.session_keys.lookup sid
        = some (hkdfSha256 (mk ++ strBytes sid))
    ∧ (encrypt_chacha20 m data none sid nonce).2 = .error .chacha_nonce_invalid
    ∧ (encrypt_chacha20 m data none sid nonce).1.session_keys.lookup sid
        = some (hkdfSha256 (mk ++ strBytes sid))
    ∧ decrypt_aes m e none sid = .error (.session_key_not_found sid)
    ∧ decrypt_chacha20 m c none sid = .error (.session_key_not_found sid) := by
  obtain ⟨mA, kA, heqA, _, hlA, hdA⟩ := encrypt_aes_spec m mk data sid iv hm (by omega)
  obtain ⟨mC, kC, heqC, _, hlC, hdC⟩ := encrypt_chacha20_fails m mk data sid nonce hm (by omega)
  refine ⟨⟨{ ciphertext := xorBytes data (aesGcmKeystream kA iv data.length), iv := iv,
             tag := gcmTag kA iv (xorBytes data (aesGcmKeystream kA iv data.length)) }, ?_⟩,
    ?_, ?_, ?_, ?_, ?_⟩
  · rw [heqA]
  · rw [heqA]
    rw [hdA habsent] at hlA
    exact hlA
  · rw [heqC]
  · rw [heqC]
    rw [hdC habsent] at hlC
    exact hlC
  · simp [decrypt_aes, getDecryptKey, habsent, Bind.bind, Except.bind]
  · simp [decrypt_chacha20, getDecryptKey, habsent, Bind.bind, Except.bind]

theorem provisioning_asymmetry_amended_witness :
    (∃ r, (encrypt_aes { master_key := some [1] } [5] none "s" iv12).2 = .ok r)
    ∧ (encrypt_aes { master_key := some [1] } [5] none "s" iv12).1.session_keys.lookup "s"
        = some (hkdfSha256 ([1] ++ strBytes "s"))
    ∧ (encrypt_chacha20 { master_key := some [1] } [5] none "s" nonce12).2
        = .error .chacha_nonce_invalid
    ∧ (encrypt_chacha20 { master_key := some [1] } [5] none "s" nonce12).1.session_keys.lookup "s"
        = some (hkdfSha256 ([1] ++ strBytes "s"))
    ∧ decrypt_aes { master_key := some [1] } ⟨[5], iv12, [4]⟩ none "s" =
        .error (.session_key_not_found "s")
    ∧ decrypt_chacha20 { master_key := some [1] } ⟨[5], nonce12⟩ none "s" =
        .error (.session_key_not_found "s") :=
  provisioning_asymmetry_amended { master_key := some [1] } [1] "s" [5] iv12 nonce12
    ⟨[5], iv12, [4]⟩ ⟨[5], nonce12⟩ rfl rfl (by decide) (by decide)

/-! ## Claim C7: performance score (code bug) -/

/-- C7 (code bug): the code computes `max(0, 1 - (t - 1) / 5)` with no
upper clamp, although its own docstring says "return score (0-1)" and its
comment says "Normalize to 0-1".  At a round-trip time of 0.5 seconds the
returned score is 11/10 > 1, outside [0, 1], so the claimed
`clamp(0, 1 - (t - 1)/5, 1)` is not what the code computes. -/
theorem performance_score_exceeds_one :
    performance_score_of (1/2) = 11/10 ∧ 1 < performance_score_of (1/2) := by
  constructor <;> norm_num [performance_score_of]

/-! ## Claim C3: rotation mutual exclusion -/

/-- An identity record used by the concrete rotation scenarios. -/
def someInfo : IPInfo :=
  { ip := "1.2.3.4", country := "A", city := "B", region := "C", isp := "D",
    latitude := 0, longitude := 0, timestamp := 0 }

/-- A connected rotator: default config, one active identity, empty history. -/
def stConnected : RotatorState := { current_ip_info := some someInfo }

/-- Environment whose (single) build attempt succeeds. -/
def envBuildOk : RotationEnv :=
  { tor_rotate_outcome := fun _ => true, new_ip := some "5.6.7.8",
    location_info := some {}, now := 2 }

/-- Environment whose build attempt fails. -/
def envBuildFail : RotationEnv :=
  { tor_rotate_outcome := fun _ => false, new_ip := some "5.6.7.8",
    location_info := some {}, now := 1 }

/-- C4 counterexample: a rotation attempt whose build fails still appends
the prior identity's snapshot to `ip_history` (the append happens before
the build attempt, lines 110-112), refuting "a snapshot is appended ...
exactly when a rotation succeeds — none for a failed attempt".  The prior
identity does stay current. -/
theorem failed_rotation_appends_history :
    (rotate_ip stConnected envBuildFail).1 = false
    ∧ stConnected.ip_history = []
    ∧ (rotate_ip stConnected envBuildFail).2.ip_history = [someInfo]
    ∧ (rotate_ip stConnected envBuildFail).2.current_ip_info = some someInfo :=
  ⟨rfl, rfl, rfl, rfl⟩

/-- C4 amended: a rotation attempt that passes the guard appends the
currently active identity's snapshot (when one exists) to the history
*unconditionally* — whether or not the rotation subsequently succeeds —
and a failed rotation leaves the previously active identity as the
current one. -/
theorem rotation_failure_keeps_identity (st : RotatorState) (env : RotationEnv)
    (h : st.is_rotating = false) :
    (rotate_ip st env).2.ip_history = st.ip_history ++ (match st.current_ip_info with
      | some info => [info]
      | none => [])
    ∧ ((rotate_ip st env).1 = false →
        (rotate_ip st env).2.current_ip_info = st.current_ip_info) := by
  rcases h1 : env.tor_rotate_outcome 0 with _ | _ <;>
    rcases h2 : env.new_ip with _ | ip <;>
    rcases h3 : env.location_info with _ | loc <;>
    simp [rotate_ip, rotateBegin, rotateResume, h, h1, h2, h3]

theorem rotation_failure_keeps_identity_witness :
    (rotate_ip stConnected envBuildFail).2.ip_history =
      stConnected.ip_history ++ (match stConnected.current_ip_info with
        | some info => [info]
        | none => [])
    ∧ ((rotate_ip stConnected envBuildFail).1 = false →
        (rotate_ip stConnected envBuildFail).2.current_ip_info = stConnected.current_ip_info) :=
  rotation_failure_keeps_identity stConnected envBuildFail rfl

/-! ## Claim C5: retry policy -/

/-- Environment whose first build attempt fails but whose second would
have succeeded. -/
def envSecondWouldSucceed : RotationEnv :=
  { tor_rotate_outcome := fun i => i == 1, new_ip := some "5.6.7.8",
    location_info := some {}, now := 1 }

/-- C5 counterexample: with `max_rotation_attempts = 3` configured, a
single failed build makes `rotate_ip` report failure immediately even
though the second of the three allowed attempts would have succeeded:
the code consults neither `max_rotation_attempts` nor `cooldown_seconds`
and never retries. -/
theorem no_retry_counterexample :
    stConnected.config.max_rotation_attempts = 3
    ∧ envSecondWouldSucceed.tor_rotate_outcome 1 = true
    ∧ (rotate_ip stConnected envSecondWouldSucceed).1 = false
    ∧ (rotate_ip stConnected envSecondWouldSucceed).2.current_ip_info =
        stConnected.current_ip_info :=
  ⟨rfl, rfl, rfl, rfl⟩

/-- C5 amended: `rotate_ip` performs exactly one build attempt; when that
single attempt fails it reports failure immediately — with no retry and no
cooldown wait — while the prior identity stays current, and the outcome is
the same for every configured value of `max_rotation_attempts` (the
configuration fields `max_rotation_attempts` and `cooldown_seconds` are
never consulted). -/
theorem single_build_attempt_no_retry (st : RotatorState) (env : RotationEnv) (n : Nat)
    (h : st.is_rotating = false) (hfail : env.tor_rotate_outcome 0 = false) :
    (rotate_ip st env).1 = false
    ∧ (rotate_ip st env).2.current_ip_info = st.current_ip_info
    ∧ (rotate_ip { st with config := { st.config with max_rotation_attempts := n } } env).1
        = false := by
  refine ⟨?_, ?_, ?_⟩ <;> simp [rotate_ip, rotateBegin, rotateResume, h, hfail]

theorem single_build_attempt_no_retry_witness :
    (rotate_ip stConnected envBuildFail).1 = false
    ∧ (rotate_ip stConnected envBuildFail).2.current_ip_info = stConnected.current_ip_info
    ∧ (rotate_ip { stConnected with
        config := { stConnected.config with max_rotation_attempts := 1000 } } envBuildFail).1
        = false :=
  single_build_attempt_no_retry stConnected envBuildFail 1000 rfl rfl

/-! ## Claim C9: bounded history -/

/-- `n` consecutive `rotate_ip` calls against a fixed environment. -/
def iterRotate (st : RotatorState) (env : RotationEnv) : Nat → RotatorState
  | 0 => st
  | n + 1 => (rotate_ip (iterRotate st env n) env).2

/-- C9 counterexample: eleven successful rotations on a default-config
rotator leave eleven snapshots in `ip_history`: the store itself is
unbounded (nothing ever trims it to the last 10); only the accessor
`get_ip_history` truncates on read. -/
theorem history_store_unbounded :
    ((List.range 11).all fun i => (rotate_ip (iterRotate stConnected envBuildOk i) envBuildOk).1)
      = true
    ∧ (iterRotate stConnected envBuildOk 11).ip_history.length = 11
    ∧ stConnected.config = {} :=
  ⟨rfl, rfl, rfl⟩

/-- C9 amended: the history *store* is unbounded and append-only; it is
the accessor `get_ip_history` that bounds what it returns: for any
positive `limit` (the default call uses 10) it returns at most `limit`
snapshots, and what it returns is a suffix of the full history (the most
recent entries, in append order). -/
theorem get_ip_history_bounded (st : RotatorState) (limit : Nat) (h : 0 < limit) :
    (get_ip_history st limit).length ≤ limit
    ∧ (get_ip_history st limit).IsSuffix st.ip_history := by
  unfold get_ip_history
  split
  next he => exact ⟨by simp, List.nil_suffix⟩
  next he =>
    split
    next h0 => exact absurd h0 (by omega)
    next h0 =>
      refine ⟨?_, List.drop_suffix _ _⟩
      rw [List.length_drop]
      omega

theorem get_ip_history_bounded_witness :
    (get_ip_history (iterRotate stConnected envBuildOk 11) 10).length ≤ 10
    ∧ (get_ip_history (iterRotate stConnected envBuildOk 11) 10).IsSuffix
        (iterRotate stConnected envBuildOk 11).ip_history :=
  get_ip_history_bounded (iterRotate stConnected envBuildOk 11) 10 (by decide)

end GhostPass
